import Mathlib

/-!
Shallow embedding of the egs-sdk Python client (kubeslice-ent/egs-sdk).

The embedding models the authenticated HTTP client and its token-exchange /
session logic from `egs/internal/client/egs_core_apis_client.py`,
`egs/authentication.py`, `egs/authenticated_session.py`, `egs/__init__.py`,
the GPR resource functions from `egs/gpu_requests.py`, the API-key resource
functions from `egs/api_key.py`, and the `CreateGprRequest` DTO from
`egs/internal/gpr/create_gpr_data.py`.

Network I/O is modelled by passing the server replies as explicit arguments
(an oracle per HTTP exchange); Python exceptions are modelled with `Except`;
the process-wide default-session global is modelled by explicit state passing
of the slot value.
-/

namespace Egs

/-- A JSON value, as produced by Python `json.loads` / consumed by
`json.dumps` (numbers restricted to integers, which is all this client
ever puts on the wire). -/
inductive Jv where
  | null : Jv
  | bool : Bool → Jv
  | num : Int → Jv
  | str : String → Jv
  | arr : List Jv → Jv
  | obj : List (String × Jv) → Jv

/-- Python truthiness of an optional string: `None` and `""` are falsy,
every other string is truthy. -/
def pyTruthy : Option String → Bool
  | none => false
  | some s => !(s == "")

/-- Index of the first occurrence of `pat` in `s` (character index), as
computed by Python `str.find` / `str.index` (the latter raises `ValueError`
instead of returning `-1` when the result here is `none`). -/
def findSub (s pat : String) : Option Nat :=
  (List.range (s.length + 1)).find? (fun i => ((s.drop i).take pat.length) == pat)

/-- Split a character list on a separator character, keeping empty pieces,
with Python `str.split(sep)` semantics for a one-character separator
(`"".split(sep)` gives `[""]`).  `acc` holds the current piece reversed. -/
def splitListOn (c : Char) : List Char → List Char → List (List Char)
  | [], acc => [acc.reverse]
  | x :: xs, acc =>
    if x == c then acc.reverse :: splitListOn c xs []
    else splitListOn c xs (x :: acc)

/-- Python `s.split(c)` for a one-character separator `c`. -/
def splitOnChar (c : Char) (s : String) : List String :=
  (splitListOn c s.toList []).map String.mk

/-- Python `c in s` for a single character `c`. -/
def containsChar (c : Char) (s : String) : Bool :=
  s.toList.contains c

/-- Python `int(s)` on a decimal literal with optional sign: `some` the value,
`none` when the string is not a valid integer literal (Python raises
`ValueError`). -/
def pyInt (s : String) : Option Int :=
  let cs := s.toList
  let neg : Bool := match cs with
    | '-' :: _ => true
    | _ => false
  let core : List Char := match cs with
    | '-' :: rest => rest
    | _ => cs
  if core.length > 0 && core.all (fun c => '0' ≤ c && c ≤ '9') then
    let n : Nat := core.foldl (fun acc c => 10 * acc + (c.toNat - 48)) 0
    some (if neg then -(n : Int) else (n : Int))
  else
    none

/-- The parsed body of the auth endpoint reply, restricted to the fields
`exchange_api_key_for_access_token` reads: the HTTP status, the body
`message` field, and the token under `data`. -/
structure AuthHttpReply where
  status : Nat
  message : String
  token : String
deriving Repr, DecidableEq

/-- The decoded JSON envelope of a server response:
`{status, message, statusCode, data, error}` (`api_reponse.py`). -/
structure Envelope where
  status : String
  message : String
  statusCode : Int
  data : Option Jv
  error : Option Jv

/-- One HTTP exchange against a resource endpoint: the transport status
together with the parsed JSON body. -/
structure OpHttpReply where
  status : Nat
  body : Envelope

/-- `ApiResponse.__init__` from `egs/internal/client/api_reponse.py`:
the envelope body repackaged, `statusCode` stored as `status_code`. -/
structure ApiResponse where
  error : Option Jv
  data : Option Jv
  status_code : Int
  message : String
  status : String

/-- `ApiResponse(**response)`: building the response wrapper from the
decoded envelope. -/
def ApiResponse.ofEnvelope (e : Envelope) : ApiResponse :=
  { error := e.error, data := e.data, status_code := e.statusCode,
    message := e.message, status := e.status }

/-- `AuthenticationResponse` from
`egs/internal/authentication/authentication_data.py`. -/
structure AuthenticationResponse where
  token : String
deriving Repr, DecidableEq

/-- Payload of a raised `Unauthorized`: either the raw HTTP response
(`Unauthorized(res)` in `invoke_sdk_operation`) or a message string
(`Unauthorized("No authenticated session found")` in
`get_authenticated_session`). -/
inductive UnauthPayload where
  | rawResponse : OpHttpReply → UnauthPayload
  | msg : String → UnauthPayload

/-- The Python exceptions this client can raise, as modelled values.
`valueError` / `typeError` / `keyError` are the builtin exception classes;
the rest are the classes of `egs/exceptions.py`. -/
inductive EgsError where
  | valueError : String → EgsError
  | typeError : String → EgsError
  | apiKeyInvalid : Nat → EgsError
  | apiKeyExpired : AuthHttpReply → EgsError
  | apiKeyNotFound : AuthHttpReply → EgsError
  | serverUnreachable : AuthHttpReply → EgsError
  | unauthorized : UnauthPayload → EgsError
  | gpuAlreadyProvisioned : ApiResponse → EgsError
  | gpuAlreadyReleased : ApiResponse → EgsError
  | unhandledException : ApiResponse → EgsError

/-- `EgsCoreApisClient` instance attributes
(`egs/internal/client/egs_core_apis_client.py`): both credentials as stored
by `__init__`, plus the connection parameters parsed from the base URL
(`self.prefix` is `pfx` here, `prefix` being a reserved word in Lean). -/
structure EgsCoreApisClient where
  api_key : Option String
  access_token : Option String
  scheme : String
  server_host : String
  server_port : Int
  pfx : String
deriving Repr, DecidableEq

/-- `EgsCoreApisClient.__init__`.  Stores both credentials, raises
`ValueError` when both are `None`, then parses the base URL:
`server_url.index("://")` raises `ValueError` when the separator is absent
(note the source's `if scheme_part == -1` fallback is unreachable, since
`str.index` raises rather than returning `-1`); otherwise the scheme is the
part before the separator, the remainder is split on `/` into host[:port]
and a path prefix, and the port defaults to 80 for `http` and 443
otherwise. -/
def EgsCoreApisClient.make (server_url : String)
    (api_key : Option String) (access_token : Option String) :
    Except EgsError EgsCoreApisClient :=
  if api_key == none && access_token == none then
    .error (.valueError "Either api_key or access_token must be provided.")
  else
    match findSub server_url "://" with
    | none => .error (.valueError "substring not found")
    | some i =>
      let scheme := server_url.take i
      let rest := server_url.drop (i + 3)
      let url_parts := splitOnChar '/' rest
      let pfx :=
        if url_parts.length > 1 then
          let p := String.intercalate "/" (url_parts.drop 1)
          if p != "" then "/" ++ p else p
        else ""
      let head := url_parts.headD ""
      if containsChar ':' head then
        let host_port := splitOnChar ':' head
        match pyInt (host_port.getD 1 "") with
        | none => .error (.valueError "invalid literal for int")
        | some port =>
          .ok { api_key := api_key, access_token := access_token,
                scheme := scheme, server_host := host_port.headD "",
                server_port := port, pfx := pfx }
      else
        .ok { api_key := api_key, access_token := access_token,
              scheme := scheme, server_host := head,
              server_port := if scheme == "http" then 80 else 443,
              pfx := pfx }

/-- `new_egs_core_apis_client`: rechecks that not both credentials are
`None`, then delegates to the constructor. -/
def new_egs_core_apis_client (server_url : String)
    (api_key : Option String) (access_token : Option String) :
    Except EgsError EgsCoreApisClient :=
  if api_key == none && access_token == none then
    .error (.valueError "Either api_key or access_token must be provided.")
  else
    EgsCoreApisClient.make server_url api_key access_token

/-- `EgsCoreApisClient.exchange_api_key_for_access_token`, as a function of
the auth endpoint's reply (the POST to `<prefix>/api/v1/auth` is the
oracle): status 400 raises `ApiKeyInvalid(res.status)`; status 401 raises
`ApiKeyExpired` when the body message is exactly `Api Key has expired` and
`ApiKeyNotFound` otherwise; any other non-200 raises `ServerUnreachable`;
200 returns `AuthenticationResponse(**response["data"])`. -/
def exchange_api_key_for_access_token (reply : AuthHttpReply) :
    Except EgsError AuthenticationResponse :=
  if reply.status == 400 then
    .error (.apiKeyInvalid reply.status)
  else if reply.status == 401 then
    if reply.message == "Api Key has expired" then
      .error (.apiKeyExpired reply)
    else
      .error (.apiKeyNotFound reply)
  else if reply.status != 200 then
    .error (.serverUnreachable reply)
  else
    .ok { token := reply.token }

/-- Observable record of the token-determination step of
`invoke_sdk_operation` (its lines 79–86): whether
`exchange_api_key_for_access_token` was invoked during this call, and the
string placed after `Bearer ` in the `Authorization` header. -/
structure InvokeTrace where
  exchanged : Bool
  bearer : String
deriving Repr, DecidableEq

/-- The token-determination prefix of `invoke_sdk_operation`:
`access_token = self.access_token`, and
`if self.api_key and not self.access_token:` exchange the API key against
the auth endpoint (whose reply is `authReply`) and use the returned token.
When no exchange happens and `self.access_token` is `None` (only reachable
with a falsy non-`None` `api_key`), the header construction
`"Bearer " + access_token` raises `TypeError`. -/
def determine_bearer (c : EgsCoreApisClient) (authReply : AuthHttpReply) :
    Except EgsError InvokeTrace :=
  if pyTruthy c.api_key && !(pyTruthy c.access_token) then
    match exchange_api_key_for_access_token authReply with
    | .error e => .error e
    | .ok a => .ok { exchanged := true, bearer := a.token }
  else
    match c.access_token with
    | none => .error (.typeError "can only concatenate str (not NoneType) to str")
    | some t => .ok { exchanged := false, bearer := t }

/-- `EgsCoreApisClient.invoke_sdk_operation`, as a function of the client,
the auth endpoint's reply (consumed only when the API key is exchanged) and
the resource endpoint's reply `res`: determine the bearer token, perform the
HTTP exchange, then raise `Unauthorized(res)` when the transport status is
401 or 403 and otherwise return `ApiResponse(**response)` built from the
decoded body.  The trace is returned alongside so that the header contents
are observable; the client itself is never mutated (the source never
assigns to `self.access_token`), which is why no updated client is
returned: each call starts from the same credential state. -/
def invoke_sdk_operation (c : EgsCoreApisClient) (authReply : AuthHttpReply)
    (res : OpHttpReply) : Except EgsError (InvokeTrace × ApiResponse) :=
  match determine_bearer c authReply with
  | .error e => .error e
  | .ok tr =>
    if res.status == 401 || res.status == 403 then
      .error (.unauthorized (.rawResponse res))
    else
      .ok (tr, ApiResponse.ofEnvelope res.body)

/-- `AuthenticatedSession` (`egs/authenticated_session.py`): holds the
client.  The `sdk_default` constructor argument produces no stored field
(see `AuthenticatedSession.init`). -/
structure AuthenticatedSession where
  client : EgsCoreApisClient
deriving Repr, DecidableEq

/-- `AuthenticatedSession.__init__`: stores the client on the instance.
When `sdk_default` is true the body executes `_authenticated_session = self`;
without a `global` declaration this assignment creates a binding local to
`__init__` that is discarded on return, so the module-level slot
`egs._authenticated_session` (threaded here as `slot`) is returned
unchanged on every path. -/
def AuthenticatedSession.init (client : EgsCoreApisClient)
    (sdk_default : Bool) (slot : Option AuthenticatedSession) :
    AuthenticatedSession × Option AuthenticatedSession :=
  let self : AuthenticatedSession := { client := client }
  (self, slot)

/-- `egs.update_global_session(session)`: overwrites the module-level
default-session slot with `session`, whatever it held before. -/
def update_global_session (session : Option AuthenticatedSession)
    (slot : Option AuthenticatedSession) : Option AuthenticatedSession :=
  session

/-- `egs.get_authenticated_session(authenticated_session)`: start from the
global slot, override with the explicit argument when it is not `None`,
and raise `Unauthorized("No authenticated session found")` when the result
is `None`. -/
def get_authenticated_session (slot : Option AuthenticatedSession)
    (authenticated_session : Option AuthenticatedSession) :
    Except EgsError AuthenticatedSession :=
  let auth := match authenticated_session with
    | some a => some a
    | none => slot
  match auth with
  | none => .error (.unauthorized (.msg "No authenticated session found"))
  | some a => .ok a

/-- `egs.authentication.authenticate`: raise `ValueError` when both
credentials are falsy; construct the client via `new_egs_core_apis_client`
with only the chosen credential (eagerly exchanging the API key when no
access token was given, so bad keys fail at authenticate time); wrap the
client in an `AuthenticatedSession`; and store the session in the global
slot via `egs.update_global_session` exactly when `sdk_default` is true.
Returns the session together with the resulting slot contents. -/
def authenticate (endpoint : String) (api_key : Option String)
    (access_token : Option String) (sdk_default : Bool)
    (authReply : AuthHttpReply) (slot : Option AuthenticatedSession) :
    Except EgsError (AuthenticatedSession × Option AuthenticatedSession) :=
  if !(pyTruthy api_key) && !(pyTruthy access_token) then
    .error (.valueError "Either api_key or access_token must be provided.")
  else
    let clientResult :=
      if pyTruthy access_token then
        new_egs_core_apis_client endpoint none access_token
      else
        match new_egs_core_apis_client endpoint api_key none with
        | .error e => .error e
        | .ok a =>
          match exchange_api_key_for_access_token authReply with
          | .error e => .error e
          | .ok _ => .ok a
    match clientResult with
    | .error e => .error e
    | .ok auth =>
      let (auth_session, slot1) := AuthenticatedSession.init auth sdk_default slot
      let slot2 := if sdk_default then
          update_global_session (some auth_session) slot1
        else slot1
      .ok (auth_session, slot2)

/-- `DeleteGprRequest` (`egs/internal/gpr/delete_gpr_data.py`). -/
structure DeleteGprRequest where
  gprId : String
deriving Repr, DecidableEq

/-- `UpdateGprPriorityRequest`
(`egs/internal/gpr/update_gpr_priority_data.py`). -/
structure UpdateGprPriorityRequest where
  gprId : String
  priority : Int
deriving Repr, DecidableEq

/-- `UpdateGprNameRequest` (`egs/internal/gpr/update_gpr_name_data.py`). -/
structure UpdateGprNameRequest where
  gprId : String
  gprName : String
deriving Repr, DecidableEq

/-- `GprReleaseRequest` (`egs/internal/gpr/gpr_release_data.py`):
`earlyRelease` is always set to `True` by the constructor. -/
structure GprReleaseRequest where
  gprId : String
  earlyRelease : Bool
deriving Repr, DecidableEq

/-- `GprReleaseRequest.__init__`. -/
def GprReleaseRequest.make (gpr_id : String) : GprReleaseRequest :=
  { gprId := gpr_id, earlyRelease := true }

/-- `egs.gpu_requests.cancel_gpu_request`: resolve the session, build a
`DeleteGprRequest`, `DELETE /api/v1/gpr`, raise `GpuAlreadyProvisioned`
when the envelope `status_code` is not 200, return `None` otherwise. -/
def cancel_gpu_request (request_id : String)
    (authenticated_session : Option AuthenticatedSession)
    (slot : Option AuthenticatedSession)
    (authReply : AuthHttpReply) (res : OpHttpReply) : Except EgsError Unit :=
  match get_authenticated_session slot authenticated_session with
  | .error e => .error e
  | .ok auth =>
    let _req : DeleteGprRequest := { gprId := request_id }
    match invoke_sdk_operation auth.client authReply res with
    | .error e => .error e
    | .ok (_, api_response) =>
      if api_response.status_code != 200 then
        .error (.gpuAlreadyProvisioned api_response)
      else
        .ok ()

/-- `egs.gpu_requests.update_gpu_request_priority`: resolve the session,
build an `UpdateGprPriorityRequest`, `PUT /api/v1/gpr`, raise
`GpuAlreadyProvisioned` when the envelope `status_code` is not 200. -/
def update_gpu_request_priority (request_id : String) (new_priority : Int)
    (authenticated_session : Option AuthenticatedSession)
    (slot : Option AuthenticatedSession)
    (authReply : AuthHttpReply) (res : OpHttpReply) : Except EgsError Unit :=
  match get_authenticated_session slot authenticated_session with
  | .error e => .error e
  | .ok auth =>
    let _req : UpdateGprPriorityRequest := { gprId := request_id, priority := new_priority }
    match invoke_sdk_operation auth.client authReply res with
    | .error e => .error e
    | .ok (_, api_response) =>
      if api_response.status_code != 200 then
        .error (.gpuAlreadyProvisioned api_response)
      else
        .ok ()

/-- `egs.gpu_requests.update_gpu_request_name`: resolve the session, build
an `UpdateGprNameRequest`, `PUT /api/v1/gpr`, raise `GpuAlreadyProvisioned`
when the envelope `status_code` is not 200. -/
def update_gpu_request_name (request_id : String) (new_name : String)
    (authenticated_session : Option AuthenticatedSession)
    (slot : Option AuthenticatedSession)
    (authReply : AuthHttpReply) (res : OpHttpReply) : Except EgsError Unit :=
  match get_authenticated_session slot authenticated_session with
  | .error e => .error e
  | .ok auth =>
    let _req : UpdateGprNameRequest := { gprId := request_id, gprName := new_name }
    match invoke_sdk_operation auth.client authReply res with
    | .error e => .error e
    | .ok (_, api_response) =>
      if api_response.status_code != 200 then
        .error (.gpuAlreadyProvisioned api_response)
      else
        .ok ()

/-- `egs.gpu_requests.release_gpu`: resolve the session, build a
`GprReleaseRequest`, `PUT /api/v1/gpr`, raise `GpuAlreadyReleased` when the
envelope `status_code` is not 200, return `None` otherwise. -/
def release_gpu (request_id : String)
    (authenticated_session : Option AuthenticatedSession)
    (slot : Option AuthenticatedSession)
    (authReply : AuthHttpReply) (res : OpHttpReply) : Except EgsError Unit :=
  match get_authenticated_session slot authenticated_session with
  | .error e => .error e
  | .ok auth =>
    let _req := GprReleaseRequest.make request_id
    match invoke_sdk_operation auth.client authReply res with
    | .error e => .error e
    | .ok (_, api_response) =>
      if api_response.status_code != 200 then
        .error (.gpuAlreadyReleased api_response)
      else
        .ok ()

/-- The `error_map` literal of `egs.api_key.create_api_key`. -/
def create_api_key_error_map : List (Int × String) :=
  [(400, "Bad Request: Invalid request format."),
   (401, "Unauthorized: Invalid authentication."),
   (403, "Forbidden: You lack required permissions."),
   (404, "Not Found: Resource does not exist."),
   (409, "Conflict: Resource already exists."),
   (422, "Unprocessable Entity: Invalid request parameters."),
   (500, "Internal Server Error: Server-side issue."),
   (503, "Service Unavailable: Temporary server issue.")]

/-- `egs.api_key.create_api_key`: resolve the session; for roles `Editor`
and `Viewer` a falsy `workspace_name` raises `ValueError` before any
network call; `POST /api/v1/api-key`; on envelope `status_code` 200 return
`data["apiKey"]` (a missing key becomes
`ValueError("Unexpected response: apiKey missing.")`, a non-dict `data`
raises `TypeError` uncaught); otherwise raise `ValueError` with the
`error_map` text when the code is mapped, else `UnhandledException`. -/
def create_api_key (name : String) (role : String) (validity : String)
    (username : String) (description : String)
    (workspace_name : Option String)
    (authenticated_session : Option AuthenticatedSession)
    (slot : Option AuthenticatedSession)
    (authReply : AuthHttpReply) (res : OpHttpReply) : Except EgsError Jv :=
  match get_authenticated_session slot authenticated_session with
  | .error e => .error e
  | .ok auth =>
    let _req : List (String × Jv) :=
      [("name", .str name), ("userName", .str username),
       ("description", .str description), ("role", .str role),
       ("validity", .str validity)]
    if (role == "Editor" || role == "Viewer") && !(pyTruthy workspace_name) then
      .error (.valueError "workspaceName is required for roles Editor and Viewer")
    else
      match invoke_sdk_operation auth.client authReply res with
      | .error e => .error e
      | .ok (_, api_response) =>
        if api_response.status_code == 200 then
          match api_response.data with
          | some (.obj kvs) =>
            match kvs.lookup "apiKey" with
            | some v => .ok v
            | none => .error (.valueError "Unexpected response: apiKey missing.")
          | _ => .error (.typeError "object is not subscriptable")
        else
          match create_api_key_error_map.lookup api_response.status_code with
          | some m => .error (.valueError m)
          | none => .error (.unhandledException api_response)

/-- The `error_map` literal of `egs.api_key.delete_api_key`. -/
def delete_api_key_error_map : List (Int × String) :=
  [(401, "Unauthorized: Authentication failed."),
   (403, "Forbidden: Insufficient permissions."),
   (404, "API Key not found.")]

/-- `egs.api_key.delete_api_key`: resolve the session,
`DELETE /api/v1/api-key`, return `data` on envelope `status_code` 200,
else a mapped `ValueError` or `UnhandledException`. -/
def delete_api_key (api_key : String)
    (authenticated_session : Option AuthenticatedSession)
    (slot : Option AuthenticatedSession)
    (authReply : AuthHttpReply) (res : OpHttpReply) :
    Except EgsError (Option Jv) :=
  match get_authenticated_session slot authenticated_session with
  | .error e => .error e
  | .ok auth =>
    let _req : List (String × Jv) := [("apiKey", .str api_key)]
    match invoke_sdk_operation auth.client authReply res with
    | .error e => .error e
    | .ok (_, api_response) =>
      if api_response.status_code == 200 then
        .ok api_response.data
      else
        match delete_api_key_error_map.lookup api_response.status_code with
        | some m => .error (.valueError m)
        | none => .error (.unhandledException api_response)

/-- The `error_map` literal of `egs.api_key.list_api_keys`. -/
def list_api_keys_error_map : List (Int × String) :=
  [(401, "Unauthorized: Authentication failed."),
   (403, "Forbidden: Insufficient permissions."),
   (404, "No API Keys found.")]

/-- `egs.api_key.list_api_keys`: resolve the session,
`GET /api/v1/api-key/list`, return `data` on envelope `status_code` 200,
else a mapped `ValueError` or `UnhandledException`. -/
def list_api_keys (workspace_name : Option String)
    (authenticated_session : Option AuthenticatedSession)
    (slot : Option AuthenticatedSession)
    (authReply : AuthHttpReply) (res : OpHttpReply) :
    Except EgsError (Option Jv) :=
  match get_authenticated_session slot authenticated_session with
  | .error e => .error e
  | .ok auth =>
    let _path := if pyTruthy workspace_name then
        "/api/v1/api-key/list?workspaceName=" ++ workspace_name.getD ""
      else "/api/v1/api-key/list"
    match invoke_sdk_operation auth.client authReply res with
    | .error e => .error e
    | .ok (_, api_response) =>
      if api_response.status_code == 200 then
        .ok api_response.data
      else
        match list_api_keys_error_map.lookup api_response.status_code with
        | some m => .error (.valueError m)
        | none => .error (.unhandledException api_response)

/-- `CreateGprRequest` (`egs/internal/gpr/create_gpr_data.py`): the
instance attributes, under the camelCase names the constructor assigns. -/
structure CreateGprRequest where
  gprName : String
  sliceName : String
  clusterName : String
  preferredClusters : Option (List String)
  enableAutoClusterSelection : Bool
  enableAutoGpuSelection : Bool
  numberOfGPUs : Int
  instanceType : String
  exitDuration : String
  numberOfGPUNodes : Int
  priority : Int
  memoryPerGpu : Int
  gpuShape : String
  idleTimeOutDuration : String
  enforceIdleTimeOut : Bool
  enableEviction : Option Bool
  requeueOnFailure : Option Bool
deriving Repr

/-- `CreateGprRequest.__init__`: the snake_case-to-camelCase attribute
assignment, in particular `gpu_per_node_count` → `numberOfGPUs` and
`node_count` → `numberOfGPUNodes`. -/
def CreateGprRequest.make (request_name : String) (workspace_name : String)
    (node_count : Int) (gpu_per_node_count : Int) (memory_per_gpu : Int)
    (exit_duration : String) (priority : Int)
    (idle_timeout_duration : String) (enforce_idle_timeout : Bool)
    (cluster_name : String) (instance_type : String) (gpu_shape : String)
    (enable_eviction : Option Bool) (requeue_on_failure : Option Bool)
    (preferred_clusters : Option (List String))
    (enable_auto_cluster_selection : Bool)
    (enable_auto_gpu_selection : Bool) : CreateGprRequest :=
  { gprName := request_name
    sliceName := workspace_name
    clusterName := cluster_name
    preferredClusters := preferred_clusters
    enableAutoClusterSelection := enable_auto_cluster_selection
    enableAutoGpuSelection := enable_auto_gpu_selection
    numberOfGPUs := gpu_per_node_count
    instanceType := instance_type
    exitDuration := exit_duration
    numberOfGPUNodes := node_count
    priority := priority
    memoryPerGpu := memory_per_gpu
    gpuShape := gpu_shape
    idleTimeOutDuration := idle_timeout_duration
    enforceIdleTimeOut := enforce_idle_timeout
    enableEviction := enable_eviction
    requeueOnFailure := requeue_on_failure }

/-- Python `None`-or-value as a JSON value. -/
def Jv.ofOptBool : Option Bool → Jv
  | none => .null
  | some b => .bool b

/-- Python `None`-or-list-of-strings as a JSON value. -/
def Jv.ofOptStrList : Option (List String) → Jv
  | none => .null
  | some xs => .arr (xs.map .str)

/-- The `__dict__` of a `CreateGprRequest` as key/value pairs, in attribute
insertion order.  `invoke_sdk_operation` serializes the request with
`json.dumps(request, default=lambda o: o.__dict__, sort_keys=True)`:
`sort_keys` reorders these pairs alphabetically but neither drops nor
renames any entry, so key lookup over this list is exactly key lookup over
the wire body. -/
def CreateGprRequest.dictItems (r : CreateGprRequest) : List (String × Jv) :=
  [("gprName", .str r.gprName),
   ("sliceName", .str r.sliceName),
   ("clusterName", .str r.clusterName),
   ("preferredClusters", Jv.ofOptStrList r.preferredClusters),
   ("enableAutoClusterSelection", .bool r.enableAutoClusterSelection),
   ("enableAutoGpuSelection", .bool r.enableAutoGpuSelection),
   ("numberOfGPUs", .num r.numberOfGPUs),
   ("instanceType", .str r.instanceType),
   ("exitDuration", .str r.exitDuration),
   ("numberOfGPUNodes", .num r.numberOfGPUNodes),
   ("priority", .num r.priority),
   ("memoryPerGpu", .num r.memoryPerGpu),
   ("gpuShape", .str r.gpuShape),
   ("idleTimeOutDuration", .str r.idleTimeOutDuration),
   ("enforceIdleTimeOut", .bool r.enforceIdleTimeOut),
   ("enableEviction", Jv.ofOptBool r.enableEviction),
   ("requeueOnFailure", Jv.ofOptBool r.requeueOnFailure)]

/-- The `CreateGprRequest` built by `egs.gpu_requests.request_gpu`
(its lines 38–56): every keyword of the resource function forwarded to the
DTO constructor. -/
def request_gpu_request (request_name : String) (workspace_name : String)
    (node_count : Int) (gpu_per_node_count : Int) (memory_per_gpu : Int)
    (exit_duration : String) (priority : Int)
    (idle_timeout_duration : String) (enforce_idle_timeout : Bool)
    (enable_auto_gpu_selection : Bool) (enable_auto_cluster_selection : Bool)
    (cluster_name : String) (instance_type : String) (gpu_shape : String)
    (requeue_on_failure : Option Bool) (enable_eviction : Option Bool)
    (preferred_clusters : Option (List String)) : CreateGprRequest :=
  CreateGprRequest.make request_name workspace_name node_count
    gpu_per_node_count memory_per_gpu exit_duration priority
    idle_timeout_duration enforce_idle_timeout cluster_name instance_type
    gpu_shape enable_eviction requeue_on_failure preferred_clusters
    enable_auto_cluster_selection enable_auto_gpu_selection

/-- Concrete client holding a direct access token (for evaluation). -/
def clientTok : EgsCoreApisClient :=
  { api_key := none, access_token := some "tok123", scheme := "http",
    server_host := "h", server_port := 80, pfx := "" }

/-- Concrete client holding only an API key (for evaluation). -/
def clientKey : EgsCoreApisClient :=
  { api_key := some "k1", access_token := none, scheme := "http",
    server_host := "h", server_port := 80, pfx := "" }

/-- Concrete successful auth-endpoint reply carrying token `t1`. -/
def authOk : AuthHttpReply := { status := 200, message := "ok", token := "t1" }

/-- Concrete envelope body with the given `statusCode`. -/
def envWith (n : Int) : Envelope :=
  { status := "e", message := "m", statusCode := n, data := none, error := none }

/-- Concrete session around `clientTok`. -/
def sessTok : AuthenticatedSession := { client := clientTok }

/-- C1: on a client holding a non-empty access token, `invoke_sdk_operation`
uses that token unchanged as the bearer and never calls
`exchange_api_key_for_access_token`; on a client holding a non-empty API key
and no (or empty) access token, the exchange runs during that very
invocation and its returned token becomes the bearer.  The client value is
never mutated (`invoke_sdk_operation` takes it unchanged), so the second
case re-runs the exchange on every call: no caching across calls. -/
theorem C1_bearer_selection :
    (∀ (c : EgsCoreApisClient) (authReply : AuthHttpReply) (t : String),
      c.access_token = some t → t ≠ "" →
      determine_bearer c authReply = .ok { exchanged := false, bearer := t }) ∧
    (∀ (c : EgsCoreApisClient) (authReply : AuthHttpReply),
      pyTruthy c.api_key = true → pyTruthy c.access_token = false →
      determine_bearer c authReply =
        match exchange_api_key_for_access_token authReply with
        | .error e => .error e
        | .ok a => .ok { exchanged := true, bearer := a.token }) := by
  constructor
  · intro c ar t h1 h2
    have hf : pyTruthy (some t) = true := by simp [pyTruthy, h2]
    simp [determine_bearer, h1, hf]
  · intro c ar h1 h2
    simp [determine_bearer, h1, h2]

/-- Witness for C1 at concrete clients: the direct-token client keeps its
token with no exchange; the key-only client exchanges and uses the token
from the auth reply. -/
theorem C1_bearer_selection_witness :
    determine_bearer clientTok authOk =
      .ok { exchanged := false, bearer := "tok123" } ∧
    determine_bearer clientKey authOk =
      (match exchange_api_key_for_access_token authOk with
        | .error e => .error e
        | .ok a => .ok { exchanged := true, bearer := a.token }) := by
  exact ⟨C1_bearer_selection.1 clientTok authOk "tok123" rfl (by decide),
         C1_bearer_selection.2 clientKey authOk rfl rfl⟩

/-- C2: once the bearer token is determined, `invoke_sdk_operation` raises
`Unauthorized` carrying the raw response exactly when the transport status
is 401 or 403; for every other transport status it does not raise but
returns the `ApiResponse` envelope, whose `status_code` field is the body's
`statusCode`, for the resource function to interpret. -/
theorem C2_unauthorized_dispatch (c : EgsCoreApisClient)
    (authReply : AuthHttpReply) (res : OpHttpReply) (tr : InvokeTrace)
    (hb : determine_bearer c authReply = .ok tr) :
    ((res.status = 401 ∨ res.status = 403) →
      invoke_sdk_operation c authReply res =
        .error (.unauthorized (.rawResponse res))) ∧
    (res.status ≠ 401 → res.status ≠ 403 →
      invoke_sdk_operation c authReply res =
        .ok (tr, ApiResponse.ofEnvelope res.body) ∧
      (ApiResponse.ofEnvelope res.body).status_code = res.body.statusCode) := by
  constructor
  · rintro (h | h) <;> simp [invoke_sdk_operation, hb, h]
  · intro h1 h2
    refine ⟨?_, rfl⟩
    simp [invoke_sdk_operation, hb, h1, h2]

/-- Witness for C2: a 403 reply raises `Unauthorized`; a 500 reply is
returned as an envelope with `status_code` 500. -/
theorem C2_unauthorized_dispatch_witness :
    invoke_sdk_operation clientTok authOk { status := 403, body := envWith 403 } =
      .error (.unauthorized (.rawResponse { status := 403, body := envWith 403 })) ∧
    invoke_sdk_operation clientTok authOk { status := 500, body := envWith 500 } =
      .ok ({ exchanged := false, bearer := "tok123" },
           ApiResponse.ofEnvelope (envWith 500)) := by
  refine ⟨(C2_unauthorized_dispatch clientTok authOk _ _ rfl).1 (Or.inr rfl), ?_⟩
  exact ((C2_unauthorized_dispatch clientTok authOk _ _ rfl).2
    (by decide) (by decide)).1

/-- C3: the auth-endpoint response mapping of
`exchange_api_key_for_access_token`: HTTP 400 raises `ApiKeyInvalid`; 401
with body message exactly `Api Key has expired` raises `ApiKeyExpired`; 401
with any other message raises `ApiKeyNotFound`; every other non-200 status
raises `ServerUnreachable`; 200 returns the `AuthenticationResponse` built
from the body's data. -/
theorem C3_exchange_mapping (reply : AuthHttpReply) :
    (reply.status = 400 →
      exchange_api_key_for_access_token reply =
        .error (.apiKeyInvalid reply.status)) ∧
    (reply.status = 401 → reply.message = "Api Key has expired" →
      exchange_api_key_for_access_token reply = .error (.apiKeyExpired reply)) ∧
    (reply.status = 401 → reply.message ≠ "Api Key has expired" →
      exchange_api_key_for_access_token reply = .error (.apiKeyNotFound reply)) ∧
    (reply.status ≠ 400 → reply.status ≠ 401 → reply.status ≠ 200 →
      exchange_api_key_for_access_token reply =
        .error (.serverUnreachable reply)) ∧
    (reply.status = 200 →
      exchange_api_key_for_access_token reply = .ok { token := reply.token }) := by
  refine ⟨?_, ?_, ?_, ?_, ?_⟩
  · intro h; simp [exchange_api_key_for_access_token, h]
  · intro h hm; simp [exchange_api_key_for_access_token, h, hm]
  · intro h hm; simp [exchange_api_key_for_access_token, h, hm]
  · intro h1 h2 h3; simp [exchange_api_key_for_access_token, h1, h2, h3]
  · intro h; simp [exchange_api_key_for_access_token, h]

/-- Witness for C3 at one concrete reply per branch. -/
theorem C3_exchange_mapping_witness :
    exchange_api_key_for_access_token { status := 400, message := "x", token := "" } =
      .error (.apiKeyInvalid 400) ∧
    exchange_api_key_for_access_token
        { status := 401, message := "Api Key has expired", token := "" } =
      .error (.apiKeyExpired { status := 401, message := "Api Key has expired", token := "" }) ∧
    exchange_api_key_for_access_token { status := 401, message := "nope", token := "" } =
      .error (.apiKeyNotFound { status := 401, message := "nope", token := "" }) ∧
    exchange_api_key_for_access_token { status := 503, message := "x", token := "" } =
      .error (.serverUnreachable { status := 503, message := "x", token := "" }) ∧
    exchange_api_key_for_access_token authOk = .ok { token := "t1" } := by
  exact ⟨(C3_exchange_mapping _).1 rfl,
         (C3_exchange_mapping _).2.1 rfl rfl,
         (C3_exchange_mapping _).2.2.1 rfl (by decide),
         (C3_exchange_mapping _).2.2.2.1 (by decide) (by decide) (by decide),
         (C3_exchange_mapping _).2.2.2.2 rfl⟩

/-- C4: session resolution, shared by every resource function through
`get_authenticated_session`: an explicitly passed session is the one used
whatever the default slot holds; with no explicit session the process-wide
default is used; with neither, `Unauthorized("No authenticated session
found")` is raised — and, as the last two conjuncts show on resource
functions, that error is produced identically for every possible network
reply, i.e. before any network call. -/
theorem C4_default_session_resolution :
    (∀ (slot : Option AuthenticatedSession) (a : AuthenticatedSession),
      get_authenticated_session slot (some a) = .ok a) ∧
    (∀ (s : AuthenticatedSession),
      get_authenticated_session (some s) none = .ok s) ∧
    (get_authenticated_session none none =
      .error (.unauthorized (.msg "No authenticated session found"))) ∧
    (∀ (rid : String) (ar : AuthHttpReply) (res : OpHttpReply),
      cancel_gpu_request rid none none ar res =
        .error (.unauthorized (.msg "No authenticated session found"))) ∧
    (∀ (n r v u d : String) (w : Option String) (ar : AuthHttpReply)
        (res : OpHttpReply),
      create_api_key n r v u d w none none ar res =
        .error (.unauthorized (.msg "No authenticated session found"))) := by
  exact ⟨fun slot a => rfl, fun s => rfl, rfl,
         fun rid ar res => rfl, fun n r v u d w ar res => rfl⟩

/-- C5 counterexample: the `EgsCoreApisClient` constructor accepts both
credentials supplied as empty strings — construction succeeds and a client
is returned, where the claim states every construction path fails with
`ValueError` on both-empty credentials (the constructor checks `is None`,
not emptiness). -/
theorem C5_ctor_accepts_both_empty :
    EgsCoreApisClient.make "http://h" (some "") (some "") =
      .ok { api_key := some "", access_token := some "", scheme := "http",
            server_host := "h", server_port := 80, pfx := "" } := rfl

/-- C5 (amended): `authenticate` raises `ValueError` whenever both
credentials are falsy (absent or empty string); the `EgsCoreApisClient`
constructor and `new_egs_core_apis_client` raise `ValueError` when both
credentials are absent (`None`) — both-empty-string credentials pass their
`is None` check. -/
theorem C5_credential_checks :
    (∀ (endpoint : String) (api_key access_token : Option String)
        (sdk_default : Bool) (ar : AuthHttpReply)
        (slot : Option AuthenticatedSession),
      pyTruthy api_key = false → pyTruthy access_token = false →
      authenticate endpoint api_key access_token sdk_default ar slot =
        .error (.valueError "Either api_key or access_token must be provided.")) ∧
    (∀ url : String,
      EgsCoreApisClient.make url none none =
        .error (.valueError "Either api_key or access_token must be provided.")) ∧
    (∀ url : String,
      new_egs_core_apis_client url none none =
        .error (.valueError "Either api_key or access_token must be provided.")) := by
  refine ⟨?_, fun url => rfl, fun url => rfl⟩
  intro endpoint ak tok d ar slot h1 h2
  simp [authenticate, h1, h2]

/-- Witness for C5 (amended) at both-empty-string credentials on
`authenticate`. -/
theorem C5_credential_checks_witness :
    authenticate "http://h" (some "") (some "") false authOk none =
      .error (.valueError "Either api_key or access_token must be provided.") := by
  exact C5_credential_checks.1 "http://h" (some "") (some "") false authOk none
    rfl rfl

/-- C6: evaluating the constructor at a server URL with no `://` separator:
`server_url.index("://")` raises `ValueError`, so construction fails — the
source's own `scheme_part == -1` branch, which would default the scheme to
`http` as the claim states, is unreachable because `str.index` raises
instead of returning `-1`. -/
theorem C6_no_separator_raises :
    EgsCoreApisClient.make "localhost:8080" none (some "tok") =
      .error (.valueError "substring not found") := rfl

/-- C7: the GPR mutation functions branch only on the envelope `statusCode`
the server reports (for replies whose transport status is not 401/403,
which `invoke_sdk_operation` intercepts first): every non-200 code, 500
included, makes `cancel_gpu_request`, `update_gpu_request_priority` and
`update_gpu_request_name` raise `GpuAlreadyProvisioned` and `release_gpu`
raise `GpuAlreadyReleased`; a 200 code makes all four return `None`. -/
theorem C7_gpr_mutation_mapping
    (rid nn : String) (np : Int)
    (explicit slot : Option AuthenticatedSession) (sess : AuthenticatedSession)
    (ar : AuthHttpReply) (res : OpHttpReply) (tr : InvokeTrace)
    (hs : get_authenticated_session slot explicit = .ok sess)
    (hb : determine_bearer sess.client ar = .ok tr)
    (h1 : res.status ≠ 401) (h2 : res.status ≠ 403) :
    (res.body.statusCode ≠ 200 →
      cancel_gpu_request rid explicit slot ar res =
        .error (.gpuAlreadyProvisioned (ApiResponse.ofEnvelope res.body)) ∧
      update_gpu_request_priority rid np explicit slot ar res =
        .error (.gpuAlreadyProvisioned (ApiResponse.ofEnvelope res.body)) ∧
      update_gpu_request_name rid nn explicit slot ar res =
        .error (.gpuAlreadyProvisioned (ApiResponse.ofEnvelope res.body)) ∧
      release_gpu rid explicit slot ar res =
        .error (.gpuAlreadyReleased (ApiResponse.ofEnvelope res.body))) ∧
    (res.body.statusCode = 200 →
      cancel_gpu_request rid explicit slot ar res = .ok () ∧
      update_gpu_request_priority rid np explicit slot ar res = .ok () ∧
      update_gpu_request_name rid nn explicit slot ar res = .ok () ∧
      release_gpu rid explicit slot ar res = .ok ()) := by
  have hinv : invoke_sdk_operation sess.client ar res =
      .ok (tr, ApiResponse.ofEnvelope res.body) := by
    simp [invoke_sdk_operation, hb, h1, h2]
  constructor
  · intro hc
    refine ⟨?_, ?_, ?_, ?_⟩ <;>
      simp [cancel_gpu_request, update_gpu_request_priority,
        update_gpu_request_name, release_gpu, hs, hinv,
        ApiResponse.ofEnvelope, hc]
  · intro hc
    refine ⟨?_, ?_, ?_, ?_⟩ <;>
      simp [cancel_gpu_request, update_gpu_request_priority,
        update_gpu_request_name, release_gpu, hs, hinv,
        ApiResponse.ofEnvelope, hc]

/-- Witness for C7: a 500 reply makes all four functions raise their
conflict exceptions; a 200 reply makes all four return `None`. -/
theorem C7_gpr_mutation_mapping_witness :
    (cancel_gpu_request "g1" (some sessTok) none authOk
        { status := 500, body := envWith 500 } =
      .error (.gpuAlreadyProvisioned (ApiResponse.ofEnvelope (envWith 500))) ∧
     update_gpu_request_priority "g1" 3 (some sessTok) none authOk
        { status := 500, body := envWith 500 } =
      .error (.gpuAlreadyProvisioned (ApiResponse.ofEnvelope (envWith 500))) ∧
     update_gpu_request_name "g1" "n2" (some sessTok) none authOk
        { status := 500, body := envWith 500 } =
      .error (.gpuAlreadyProvisioned (ApiResponse.ofEnvelope (envWith 500))) ∧
     release_gpu "g1" (some sessTok) none authOk
        { status := 500, body := envWith 500 } =
      .error (.gpuAlreadyReleased (ApiResponse.ofEnvelope (envWith 500)))) ∧
    (cancel_gpu_request "g1" (some sessTok) none authOk
        { status := 200, body := envWith 200 } = .ok () ∧
     update_gpu_request_priority "g1" 3 (some sessTok) none authOk
        { status := 200, body := envWith 200 } = .ok () ∧
     update_gpu_request_name "g1" "n2" (some sessTok) none authOk
        { status := 200, body := envWith 200 } = .ok () ∧
     release_gpu "g1" (some sessTok) none authOk
        { status := 200, body := envWith 200 } = .ok ()) := by
  constructor
  · exact (C7_gpr_mutation_mapping "g1" "n2" 3 (some sessTok) none sessTok
      authOk { status := 500, body := envWith 500 } _ rfl rfl
      (by decide) (by decide)).1 (by decide)
  · exact (C7_gpr_mutation_mapping "g1" "n2" 3 (some sessTok) none sessTok
      authOk { status := 200, body := envWith 200 } _ rfl rfl
      (by decide) (by decide)).2 rfl

/-- C8: the `CreateGprRequest` built by `request_gpu` with
`cluster_name=""`, `enable_auto_cluster_selection=True`, `instance_type=""`
and `gpu_shape=""` serializes all four fields verbatim — `clusterName:""`,
`enableAutoClusterSelection:true`, `instanceType:""`, `gpuShape:""` are
present in the JSON body, not omitted — and the `gpu_per_node_count`
parameter is serialized under the key `numberOfGPUs`. -/
theorem C8_request_gpu_serialization
    (request_name workspace_name : String)
    (node_count gpu_per_node_count memory_per_gpu : Int)
    (exit_duration : String) (priority : Int)
    (idle_timeout_duration : String) (enforce_idle_timeout : Bool)
    (enable_auto_gpu_selection : Bool)
    (requeue_on_failure enable_eviction : Option Bool)
    (preferred_clusters : Option (List String)) :
    (request_gpu_request request_name workspace_name node_count
        gpu_per_node_count memory_per_gpu exit_duration priority
        idle_timeout_duration enforce_idle_timeout enable_auto_gpu_selection
        true "" "" "" requeue_on_failure enable_eviction
        preferred_clusters).dictItems.lookup "clusterName" =
      some (.str "") ∧
    (request_gpu_request request_name workspace_name node_count
        gpu_per_node_count memory_per_gpu exit_duration priority
        idle_timeout_duration enforce_idle_timeout enable_auto_gpu_selection
        true "" "" "" requeue_on_failure enable_eviction
        preferred_clusters).dictItems.lookup "enableAutoClusterSelection" =
      some (.bool true) ∧
    (request_gpu_request request_name workspace_name node_count
        gpu_per_node_count memory_per_gpu exit_duration priority
        idle_timeout_duration enforce_idle_timeout enable_auto_gpu_selection
        true "" "" "" requeue_on_failure enable_eviction
        preferred_clusters).dictItems.lookup "instanceType" =
      some (.str "") ∧
    (request_gpu_request request_name workspace_name node_count
        gpu_per_node_count memory_per_gpu exit_duration priority
        idle_timeout_duration enforce_idle_timeout enable_auto_gpu_selection
        true "" "" "" requeue_on_failure enable_eviction
        preferred_clusters).dictItems.lookup "gpuShape" =
      some (.str "") ∧
    (request_gpu_request request_name workspace_name node_count
        gpu_per_node_count memory_per_gpu exit_duration priority
        idle_timeout_duration enforce_idle_timeout enable_auto_gpu_selection
        true "" "" "" requeue_on_failure enable_eviction
        preferred_clusters).dictItems.lookup "numberOfGPUs" =
      some (.num gpu_per_node_count) := by
  exact ⟨rfl, rfl, rfl, rfl, rfl⟩

/-- C9: a reply whose transport status is 401 or 403 makes
`invoke_sdk_operation` raise `Unauthorized` with the raw response before the
envelope is inspected, so every modelled resource function propagates
exactly that error whatever the envelope contains — in particular, on such
replies the 401/403 entries of the `error_map` tables in `create_api_key`,
`delete_api_key` and `list_api_keys` are never consulted. -/
theorem C9_transport_unauthorized_preempts
    (rid nn akey n r v u d : String) (np : Int) (w : Option String)
    (explicit slot : Option AuthenticatedSession) (sess : AuthenticatedSession)
    (ar : AuthHttpReply) (res : OpHttpReply) (tr : InvokeTrace)
    (hs : get_authenticated_session slot explicit = .ok sess)
    (hb : determine_bearer sess.client ar = .ok tr)
    (hst : res.status = 401 ∨ res.status = 403)
    (hrole : ((r == "Editor" || r == "Viewer") && !(pyTruthy w)) = false) :
    invoke_sdk_operation sess.client ar res =
      .error (.unauthorized (.rawResponse res)) ∧
    cancel_gpu_request rid explicit slot ar res =
      .error (.unauthorized (.rawResponse res)) ∧
    update_gpu_request_priority rid np explicit slot ar res =
      .error (.unauthorized (.rawResponse res)) ∧
    update_gpu_request_name rid nn explicit slot ar res =
      .error (.unauthorized (.rawResponse res)) ∧
    release_gpu rid explicit slot ar res =
      .error (.unauthorized (.rawResponse res)) ∧
    create_api_key n r v u d w explicit slot ar res =
      .error (.unauthorized (.rawResponse res)) ∧
    delete_api_key akey explicit slot ar res =
      .error (.unauthorized (.rawResponse res)) ∧
    list_api_keys w explicit slot ar res =
      .error (.unauthorized (.rawResponse res)) := by
  have hinv : invoke_sdk_operation sess.client ar res =
      .error (.unauthorized (.rawResponse res)) := by
    rcases hst with h | h <;> simp [invoke_sdk_operation, hb, h]
  refine ⟨hinv, ?_, ?_, ?_, ?_, ?_, ?_, ?_⟩ <;>
    simp [cancel_gpu_request, update_gpu_request_priority,
      update_gpu_request_name, release_gpu, create_api_key, delete_api_key,
      list_api_keys, hs, hinv, hrole]

/-- Witness for C9 at a 401 reply whose envelope `statusCode` is also 401
(an entry of every `error_map`): all functions surface `Unauthorized` with
the raw response, not the mapped `ValueError`. -/
theorem C9_transport_unauthorized_preempts_witness :
    invoke_sdk_operation sessTok.client authOk { status := 401, body := envWith 401 } =
      .error (.unauthorized (.rawResponse { status := 401, body := envWith 401 })) ∧
    cancel_gpu_request "g1" (some sessTok) none authOk
        { status := 401, body := envWith 401 } =
      .error (.unauthorized (.rawResponse { status := 401, body := envWith 401 })) ∧
    update_gpu_request_priority "g1" 3 (some sessTok) none authOk
        { status := 401, body := envWith 401 } =
      .error (.unauthorized (.rawResponse { status := 401, body := envWith 401 })) ∧
    update_gpu_request_name "g1" "n2" (some sessTok) none authOk
        { status := 401, body := envWith 401 } =
      .error (.unauthorized (.rawResponse { status := 401, body := envWith 401 })) ∧
    release_gpu "g1" (some sessTok) none authOk
        { status := 401, body := envWith 401 } =
      .error (.unauthorized (.rawResponse { status := 401, body := envWith 401 })) ∧
    create_api_key "k" "Owner" "2026-01-01" "admin" "" none (some sessTok) none
        authOk { status := 401, body := envWith 401 } =
      .error (.unauthorized (.rawResponse { status := 401, body := envWith 401 })) ∧
    delete_api_key "ak" (some sessTok) none authOk
        { status := 401, body := envWith 401 } =
      .error (.unauthorized (.rawResponse { status := 401, body := envWith 401 })) ∧
    list_api_keys none (some sessTok) none authOk
        { status := 401, body := envWith 401 } =
      .error (.unauthorized (.rawResponse { status := 401, body := envWith 401 })) := by
  exact C9_transport_unauthorized_preempts "g1" "n2" "ak" "k" "Owner"
    "2026-01-01" "admin" "" 3 none (some sessTok) none sessTok authOk
    { status := 401, body := envWith 401 } _ rfl rfl (Or.inl rfl) (by decide)

/-- C10: constructing an `AuthenticatedSession` directly never changes the
process-wide default-session slot, whatever `sdk_default` is (the
constructor's assignment binds a name local to `__init__`); the slot is
written only by `egs.update_global_session`, which overwrites it with its
argument; and `authenticate` applies that write exactly when its
`sdk_default` argument is true, leaving the slot unchanged otherwise. -/
theorem C10_global_slot_discipline :
    (∀ (client : EgsCoreApisClient) (d : Bool)
        (slot : Option AuthenticatedSession),
      (AuthenticatedSession.init client d slot).2 = slot) ∧
    (∀ (sess slot : Option AuthenticatedSession),
      update_global_session sess slot = sess) ∧
    (∀ (endpoint : String) (ak tok : Option String) (d : Bool)
        (ar : AuthHttpReply) (slot slot2 : Option AuthenticatedSession)
        (s : AuthenticatedSession),
      authenticate endpoint ak tok d ar slot = .ok (s, slot2) →
      slot2 = if d then update_global_session (some s) slot else slot) := by
  refine ⟨fun client d slot => rfl, fun sess slot => rfl, ?_⟩
  intro endpoint ak tok d ar slot slot2 s h
  unfold authenticate at h
  by_cases hc : (!(pyTruthy ak) && !(pyTruthy tok)) = true
  · rw [if_pos hc] at h
    exact absurd h (by simp)
  · rw [if_neg hc] at h
    cases hcr : (if pyTruthy tok then new_egs_core_apis_client endpoint none tok
      else match new_egs_core_apis_client endpoint ak none with
        | .error e => .error e
        | .ok a =>
          match exchange_api_key_for_access_token ar with
          | .error e => .error e
          | .ok _ => .ok a) with
    | error e =>
      rw [hcr] at h
      exact absurd h (by simp)
    | ok auth =>
      rw [hcr] at h
      simp only [AuthenticatedSession.init] at h
      injection h with h2
      injection h2 with hsess hslot
      subst hsess
      subst hslot
      rfl

/-- Concrete client built by `authenticate "http://h"` with access token
`t1`. -/
def clientT1 : EgsCoreApisClient :=
  { api_key := none, access_token := some "t1", scheme := "http",
    server_host := "h", server_port := 80, pfx := "" }

/-- Concrete session produced by `authenticate "http://h"` with access
token `t1`. -/
def sessT1 : AuthenticatedSession :=
  { client := clientT1 }

/-- Witness for C10: the direct constructor leaves the slot empty even with
`sdk_default=True`; `update_global_session` overwrites the slot; a concrete
successful `authenticate` with `sdk_default=True` yields a slot holding the
returned session. -/
theorem C10_global_slot_discipline_witness :
    (AuthenticatedSession.init clientTok true none).2 = none ∧
    update_global_session (some sessTok) none = some sessTok ∧
    (some sessT1 : Option AuthenticatedSession) =
      (if true then update_global_session (some sessT1) none else none) := by
  exact ⟨C10_global_slot_discipline.1 clientTok true none,
         C10_global_slot_discipline.2.1 (some sessTok) none,
         C10_global_slot_discipline.2.2 "http://h" none (some "t1") true
           authOk none (some sessT1) sessT1 (by rfl)⟩

end Egs
